import Mathlib

/-!
# PeakSport — verification of the cart and review engines

Shallow embedding of `Modelo_de_Datos_PostgreSQL_y_CRUD/Cart.py` and
`Modelo_de_Datos_PostgreSQL_y_CRUD/Resenas.py`.

The database is modelled as explicit lists of rows; each CRUD function is a
pure Lean function from inputs and a `DB` state to a result together with the
successor state.  ORM queries (`filter_by ... first()`, `session.get`) become
`List.find?` over the row lists; `session.commit()` of an INSERT/UPDATE is
modelled as enforcing the table CHECK constraints declared in the source
(`chk_cantidad_positiva`, `chk_precio_unitario_no_negativo`) on the touched
rows, with rollback (returning the unchanged state) when they fail.  Python's
arbitrary-precision integers become `Int`/`Nat`; the floating-point
expressions in `calcular_totales_carrito` (`subtotal * 0.1`, `x / 100`) are
modelled by exact rational arithmetic; Python's `round(x, 1)` (correct
round-half-even to one decimal digit) is modelled by `round1` below.
-/

/-- A row of the `productos` table (the fields used by the cart/review code). -/
structure Producto where
  id : Nat
  precio_centavos : Int
  stock : Int
  activo : Bool
  deriving Repr, DecidableEq

/-- A row of the `carts` table. -/
structure Cart where
  id : Nat
  usuario_id : Option Nat
  session_id : Option String
  activo : Bool
  deriving Repr, DecidableEq

/-- A row of the `cart_items` table. -/
structure CartItem where
  id : Nat
  cart_id : Nat
  producto_id : Nat
  cantidad : Int
  precio_unitario : Int
  deriving Repr, DecidableEq

/-- A row of the `resenas` table. -/
structure Resena where
  id : Nat
  producto_id : Nat
  usuario_id : Nat
  calificacion : Int
  comentario : String
  compra_verificada : Bool
  deriving Repr, DecidableEq

/-- The database state seen by the cart and review engines.  `usuarios` only
needs primary keys here; `nextCartId`, `nextItemId`, `nextResenaId` model the
serial id sequences. -/
structure DB where
  productos : List Producto
  carts : List Cart
  items : List CartItem
  resenas : List Resena
  usuarios : List Nat
  nextCartId : Nat
  nextItemId : Nat
  nextResenaId : Nat
  deriving Repr, DecidableEq

/-- `db.session.get(Producto, pid)` — primary-key lookup. -/
def getProducto (db : DB) (pid : Nat) : Option Producto :=
  db.productos.find? (fun p => p.id == pid)

/-- `db.session.get(Cart, cid)` — primary-key lookup. -/
def getCart (db : DB) (cid : Nat) : Option Cart :=
  db.carts.find? (fun c => c.id == cid)

/-- `CartItem.query.filter_by(cart_id=..., producto_id=...).first()`. -/
def findItem (items : List CartItem) (cid pid : Nat) : Option CartItem :=
  items.find? (fun it => it.cart_id == cid && it.producto_id == pid)

/-- The subtotal of a cart in integer cents:
`sum(item.cantidad * item.precio_unitario for item in items_list)` where
`items_list` is the cart's item collection. -/
def cartSubtotalCents (db : DB) (cid : Nat) : Int :=
  ((db.items.filter (fun it => it.cart_id == cid)).map
    (fun it => it.cantidad * it.precio_unitario)).sum

/-- `sum(item.cantidad for item in items_list)`. -/
def cartTotalItems (db : DB) (cid : Nat) : Int :=
  ((db.items.filter (fun it => it.cart_id == cid)).map (fun it => it.cantidad)).sum

/-- Round-half-even to an integer (the tie-breaking rule both of Python 3's
built-in `round` and of IEEE-754 round-to-nearest). -/
def rhe (q : ℚ) : Int :=
  let f := ⌊q⌋
  let r := q - f
  if r < 1 / 2 then f
  else if 1 / 2 < r then f + 1
  else if f % 2 = 0 then f else f + 1

/-- The IEEE-754 binary64 value nearest to `q` (round to nearest, ties to
even), as a rational: the grid of representable doubles around `q` consists
of the multiples of `2 ^ (⌊log₂ |q|⌋ - 52)` (clamped below at the subnormal
grid `2 ^ (-1074)`), and the nearest grid point is taken.  Every float
operation of the Python source (`int * float`, `float + int`, `/`, the
`int → float` conversion) produces exactly such a correctly rounded value.
Overflow to infinity (magnitudes beyond 2^1024) is outside the model;
every quantity arising in these claims is far below that threshold. -/
def toDouble (q : ℚ) : ℚ :=
  if q = 0 then 0
  else
    (rhe (q / 2 ^ max (Int.log 2 |q| - 52) (-1074)) : ℚ) *
      2 ^ max (Int.log 2 |q| - 52) (-1074)

/-- The Python float literal `0.1` of `Cart.py`: the double nearest 1/10,
namely 3602879701896397 · 2⁻⁵⁵. -/
def d01 : ℚ := 3602879701896397 / 2 ^ 55

/-- Python's `round(x, 1)` on a double `x`: the exact (finite) decimal value
of `x` is rounded half-even to one decimal digit, giving a decimal `k/10`;
the float that Python returns is the double nearest `k/10`, which we denote
by its decimal value `k/10` itself (the value it prints as — the same
identification used for the statistics example). -/
def round1 (q : ℚ) : ℚ := (rhe (10 * q) : ℚ) / 10

/-- The dictionary returned by `calcular_totales_carrito`. -/
structure Totales where
  subtotal : ℚ
  impuestos : ℚ
  envio : ℚ
  total : ℚ
  total_items : Int
  envio_gratis : Bool
  deriving Repr, DecidableEq

/-- `calcular_totales_carrito(cart_id)` from `Cart.py`.  A missing cart yields
the all-zero dictionary.  Otherwise the items of the cart are summed in
integer cents, `impuestos = subtotal * 0.1` (the int is converted to a
double, multiplied by the double literal 0.1, and the product is correctly
rounded), `envio = 0 if subtotal >= 100000 else 1500` (exact integer
arithmetic), `total = subtotal + impuestos + envio` (two correctly rounded
double additions, left to right), and every monetary field is divided by 100
(a correctly rounded double division) in the result. -/
def calcular_totales_carrito (cart_id : Nat) (db : DB) : Totales :=
  match getCart db cart_id with
  | none => ⟨0, 0, 0, 0, 0, false⟩
  | some cart =>
    let items_list := db.items.filter (fun it => it.cart_id == cart.id)
    let subtotal : Int := (items_list.map (fun it => it.cantidad * it.precio_unitario)).sum
    let total_items : Int := (items_list.map (fun it => it.cantidad)).sum
    let impuestos : ℚ := toDouble (toDouble (subtotal : ℚ) * d01)
    let envio : Int := if subtotal ≥ 100000 then 0 else 1500
    let total : ℚ := toDouble (toDouble (toDouble (subtotal : ℚ) + impuestos) + toDouble (envio : ℚ))
    ⟨toDouble ((subtotal : ℚ) / 100), toDouble (impuestos / 100),
      toDouble ((envio : ℚ) / 100), toDouble (total / 100),
      total_items, subtotal ≥ 100000⟩

/-- Python truthiness of an optional integer id (`None` and `0` are falsy). -/
def truthyId : Option Nat → Bool
  | none => false
  | some n => n != 0

/-- Python truthiness of an optional string (`None` and `""` are falsy). -/
def truthyStr : Option String → Bool
  | none => false
  | some s => !s.isEmpty

/-- `obtener_o_crear_carrito(usuario_id, session_id)` from `Cart.py`.
Requires at least one (truthy) identifier; looks up an active cart by
`usuario_id` when it is truthy, otherwise by `session_id`; creates a cart
carrying both identifiers when none is found. -/
def obtener_o_crear_carrito (usuario_id : Option Nat) (session_id : Option String)
    (db : DB) : Option Cart × DB :=
  if !truthyId usuario_id && !truthyStr session_id then (none, db)
  else
    let found :=
      if truthyId usuario_id then
        db.carts.find? (fun c => c.activo && c.usuario_id == usuario_id)
      else
        db.carts.find? (fun c => c.activo && c.session_id == session_id)
    match found with
    | some cart => (some cart, db)
    | none =>
      let cart : Cart := ⟨db.nextCartId, usuario_id, session_id, true⟩
      (some cart, { db with carts := db.carts ++ [cart], nextCartId := db.nextCartId + 1 })

/-- Update the first item satisfying `p` by adding `d` to its quantity
(the ORM mutates the single row returned by `first()`). -/
def bumpFirst (p : CartItem → Bool) (d : Int) : List CartItem → List CartItem
  | [] => []
  | it :: rest =>
    if p it then { it with cantidad := it.cantidad + d } :: rest
    else it :: bumpFirst p d rest

/-- `agregar_item_carrito(cart_id, producto_id, cantidad)` from `Cart.py`.
Validates cart, product, product activity and stock; merges into an existing
item for the same product or inserts a new item frozen at the product's
current price.  The commit of the touched row enforces the
`cantidad > 0` / `precio_unitario >= 0` CHECK constraints; a violation rolls
back and returns `none` with the state unchanged. -/
def agregar_item_carrito (cart_id producto_id : Nat) (cantidad : Int)
    (db : DB) : Option CartItem × DB :=
  match getCart db cart_id with
  | none => (none, db)
  | some _ =>
    match getProducto db producto_id with
    | none => (none, db)
    | some producto =>
      if !producto.activo then (none, db)
      else if producto.stock < cantidad then (none, db)
      else
        match findItem db.items cart_id producto_id with
        | some existing_item =>
          if producto.stock < existing_item.cantidad + cantidad then (none, db)
          else if existing_item.cantidad + cantidad ≤ 0 then (none, db)
          else
            (some { existing_item with cantidad := existing_item.cantidad + cantidad },
             { db with items := bumpFirst (fun it => it.cart_id == cart_id && it.producto_id == producto_id) cantidad db.items })
        | none =>
          if cantidad ≤ 0 || producto.precio_centavos < 0 then (none, db)
          else
            (some ⟨db.nextItemId, cart_id, producto_id, cantidad, producto.precio_centavos⟩,
             { db with items := db.items ++ [⟨db.nextItemId, cart_id, producto_id, cantidad, producto.precio_centavos⟩],
                       nextItemId := db.nextItemId + 1 })

/-- `actualizar_cantidad_item(item_id, cantidad)` from `Cart.py`.  Rejects
`cantidad <= 0` and quantities above the linked product's stock, then mutates
the item row in place.  (The item's product is reached through the
`item.producto` relationship; a dangling product reference cannot occur under
the declared foreign key, and is mapped to failure here.) -/
def actualizar_cantidad_item (item_id : Nat) (cantidad : Int) (db : DB) :
    Option CartItem × DB :=
  match db.items.find? (fun it => it.id == item_id) with
  | none => (none, db)
  | some item =>
    if cantidad ≤ 0 then (none, db)
    else
      match getProducto db item.producto_id with
      | none => (none, db)
      | some producto =>
        if producto.stock < cantidad then (none, db)
        else
          let items' := db.items.map
            (fun it => if it.id == item_id then { it with cantidad := cantidad } else it)
          (some { item with cantidad := cantidad }, { db with items := items' })

/-- Re-parent the item with primary key `itemId` to cart `ucId`
(`session_item.cart_id = user_cart.id`). -/
def setCartOf (itemId ucId : Nat) (items : List CartItem) : List CartItem :=
  items.map (fun it => if it.id == itemId then { it with cart_id := ucId } else it)

/-- One iteration of the migration loop of `migrar_carrito_sesion_a_usuario`:
if the user cart already holds the session item's product, quantities are
summed on the existing row, otherwise the session item is re-parented. -/
def migrateStep (ucId : Nat) (items : List CartItem) (si : CartItem) : List CartItem :=
  match findItem items ucId si.producto_id with
  | some _ => bumpFirst (fun it => it.cart_id == ucId && it.producto_id == si.producto_id)
      si.cantidad items
  | none => setCartOf si.id ucId items

/-- The migration loop over the snapshot of the session cart's items. -/
def migrateItems (ucId : Nat) (sessionItems items : List CartItem) : List CartItem :=
  sessionItems.foldl (migrateStep ucId) items

/-- `migrar_carrito_sesion_a_usuario(session_id, usuario_id)` from `Cart.py`.
A missing or empty session cart is a no-op returning success; otherwise the
target user cart is looked up (or created) and the session items are merged
into it, after which the session cart is marked inactive (never deleted). -/
def migrar_carrito_sesion_a_usuario (session_id : String) (usuario_id : Nat)
    (db : DB) : Bool × DB :=
  match db.carts.find? (fun c => c.session_id == some session_id && c.activo) with
  | none => (true, db)
  | some session_cart =>
    let sessionItems := db.items.filter (fun it => it.cart_id == session_cart.id)
    if sessionItems.isEmpty then (true, db)
    else
      let target : Nat × DB :=
        match db.carts.find? (fun c => c.usuario_id == some usuario_id && c.activo) with
        | some user_cart => (user_cart.id, db)
        | none =>
          let newCart : Cart := ⟨db.nextCartId, some usuario_id, none, true⟩
          (db.nextCartId,
           { db with carts := db.carts ++ [newCart], nextCartId := db.nextCartId + 1 })
      let ucId := target.1
      let db1 := target.2
      let items' := migrateItems ucId sessionItems db1.items
      let carts' := db1.carts.map
        (fun c => if c.id == session_cart.id then { c with activo := false } else c)
      (true, { db1 with items := items', carts := carts' })

/-- Python's `str.strip()`: drop leading and trailing whitespace.  (Modelled
over the character list; Python also strips a few Unicode space characters,
which the review code never relies on.) -/
def pyStrip (s : String) : String :=
  ⟨((s.data.dropWhile Char.isWhitespace).reverse.dropWhile Char.isWhitespace).reverse⟩

/-- `Resena.query.filter_by(producto_id=..., usuario_id=...).first()`. -/
def findResena (resenas : List Resena) (pid uid : Nat) : Option Resena :=
  resenas.find? (fun r => r.producto_id == pid && r.usuario_id == uid)

/-- `crear_resena(producto_id, usuario_id, calificacion, comentario,
compra_verificada)` from `Resenas.py`.  The first guard is Python's
`if not all([producto_id, usuario_id, calificacion, comentario])` (zero ids,
a zero rating and an empty comment are falsy); then the rating range, the
trimmed comment length, existence of the product and the user, and the
one-review-per-(product,user) rule are checked before the insert. -/
def crear_resena (producto_id usuario_id : Nat) (calificacion : Int)
    (comentario : String) (compra_verificada : Bool) (db : DB) :
    Option Resena × DB :=
  if producto_id == 0 || usuario_id == 0 || calificacion == 0 || comentario == "" then
    (none, db)
  else if !(1 ≤ calificacion ∧ calificacion ≤ 5 : Bool) then (none, db)
  else if (pyStrip comentario).length < 10 then (none, db)
  else if (getProducto db producto_id).isNone then (none, db)
  else if !(db.usuarios.contains usuario_id) then (none, db)
  else if (findResena db.resenas producto_id usuario_id).isSome then (none, db)
  else
    (some ⟨db.nextResenaId, producto_id, usuario_id, calificacion, pyStrip comentario, compra_verificada⟩,
     { db with
        resenas := db.resenas ++
          [⟨db.nextResenaId, producto_id, usuario_id, calificacion, pyStrip comentario, compra_verificada⟩],
        nextResenaId := db.nextResenaId + 1 })

/-- `verificar_usuario_puede_resenar(producto_id, usuario_id)` from
`Resenas.py`: true iff no review by that user for that product exists. -/
def verificar_usuario_puede_resenar (producto_id usuario_id : Nat) (db : DB) : Bool :=
  (findResena db.resenas producto_id usuario_id).isNone

/-- The dictionary returned by `obtener_estadisticas_producto`; the
zero-review branch of the source returns no `porcentajes` key, hence the
`Option`. -/
structure Estadisticas where
  total : Nat
  promedio : ℚ
  d1 : Nat
  d2 : Nat
  d3 : Nat
  d4 : Nat
  d5 : Nat
  porcentajes : Option (ℚ × ℚ × ℚ × ℚ × ℚ)
  deriving Repr, DecidableEq

/-- `obtener_estadisticas_producto(producto_id)` from `Resenas.py`.  With no
reviews it returns total 0, average 0.0 and the zero distribution (and no
percentages).  Otherwise the average is `round(suma / total, 1)` — the
division produces the correctly rounded double quotient, to which Python's
decimal 1-digit half-even rounding is applied — the distribution counts each
star 1–5, and each percentage is `round((count / total) * 100, 1)`, again
with correctly rounded double division and multiplication. -/
def obtener_estadisticas_producto (producto_id : Nat) (db : DB) : Estadisticas :=
  let resenas := db.resenas.filter (fun r => r.producto_id == producto_id)
  if resenas.isEmpty then ⟨0, 0, 0, 0, 0, 0, 0, none⟩
  else
    let total := resenas.length
    let suma : Int := (resenas.map (fun r => r.calificacion)).sum
    let promedio := round1 (toDouble ((suma : ℚ) / (total : ℚ)))
    let cnt : Int → Nat := fun k => (resenas.filter (fun r => r.calificacion == k)).length
    let pct : Nat → ℚ := fun c => round1 (toDouble (toDouble ((c : ℚ) / (total : ℚ)) * 100))
    ⟨total, promedio, cnt 1, cnt 2, cnt 3, cnt 4, cnt 5,
      some (pct (cnt 1), pct (cnt 2), pct (cnt 3), pct (cnt 4), pct (cnt 5))⟩


/-! ## Concrete database states used in examples, witnesses and counterexamples -/

/-- The spec's totals example: one cart holding items
(unit price 5000¢, qty 3) and (unit price 2000¢, qty 1). -/
def dbEjemploTotales : DB :=
  { productos := [⟨10, 5000, 50, true⟩, ⟨20, 2000, 50, true⟩],
    carts := [⟨1, some 1, none, true⟩],
    items := [⟨1, 1, 10, 3, 5000⟩, ⟨2, 1, 20, 1, 2000⟩],
    resenas := [], usuarios := [1],
    nextCartId := 2, nextItemId := 3, nextResenaId := 1 }

/-- Product with stock 5; the user cart and the session cart each hold 3 of
it, so migrating sums to 6 > 5. -/
def dbMigracionStock : DB :=
  { productos := [⟨1, 100, 5, true⟩],
    carts := [⟨1, some 7, none, true⟩, ⟨2, none, some "s", true⟩],
    items := [⟨1, 1, 1, 3, 100⟩, ⟨2, 2, 1, 3, 100⟩],
    resenas := [], usuarios := [7],
    nextCartId := 3, nextItemId := 3, nextResenaId := 1 }

/-- Cart 1 already holds 2 units of product 1 (stock 10). -/
def dbItemExistente : DB :=
  { productos := [⟨1, 100, 10, true⟩],
    carts := [⟨1, some 7, none, true⟩],
    items := [⟨1, 1, 1, 2, 100⟩],
    resenas := [], usuarios := [7],
    nextCartId := 2, nextItemId := 2, nextResenaId := 1 }

/-- An empty cart next to an active product (price 5000¢, stock 10). -/
def dbCarritoVacio : DB :=
  { productos := [⟨1, 5000, 10, true⟩],
    carts := [⟨1, some 7, none, true⟩],
    items := [],
    resenas := [], usuarios := [7],
    nextCartId := 2, nextItemId := 1, nextResenaId := 1 }

/-- A product and a user with no reviews yet. -/
def dbSinResenas : DB :=
  { productos := [⟨1, 5000, 10, true⟩],
    carts := [], items := [],
    resenas := [], usuarios := [4],
    nextCartId := 1, nextItemId := 1, nextResenaId := 1 }

/-- Product 1 carries reviews with ratings [5, 5, 4, 3]. -/
def dbResenas5543 : DB :=
  { productos := [⟨1, 100, 5, true⟩],
    carts := [], items := [],
    resenas := [⟨1, 1, 1, 5, "muy buen producto", false⟩,
                ⟨2, 1, 2, 5, "excelente compra", false⟩,
                ⟨3, 1, 3, 4, "cumple lo prometido", false⟩,
                ⟨4, 1, 4, 3, "regular, mejorable", false⟩],
    usuarios := [1, 2, 3, 4],
    nextCartId := 1, nextItemId := 1, nextResenaId := 5 }

/-- A cart holding a single item of one 3-cent product: its subtotal is 3
cents, on which `subtotal * 0.1` is not exact in binary floating point. -/
def dbTresCentavos : DB :=
  { productos := [⟨1, 3, 10, true⟩],
    carts := [⟨1, some 1, none, true⟩],
    items := [⟨1, 1, 1, 1, 3⟩],
    resenas := [], usuarios := [1],
    nextCartId := 2, nextItemId := 2, nextResenaId := 1 }

/-- Product 1 with 20 reviews summing to 87 (7 fives and 13 fours): the
double quotient 87/20 is strictly below 4.35, so Python rounds the average
down to 4.3. -/
def dbResenas87 : DB :=
  { productos := [⟨1, 100, 5, true⟩],
    carts := [], items := [],
    resenas :=
      [⟨1, 1, 1, 5, "resena de prueba", false⟩, ⟨2, 1, 2, 5, "resena de prueba", false⟩,
       ⟨3, 1, 3, 5, "resena de prueba", false⟩, ⟨4, 1, 4, 5, "resena de prueba", false⟩,
       ⟨5, 1, 5, 5, "resena de prueba", false⟩, ⟨6, 1, 6, 5, "resena de prueba", false⟩,
       ⟨7, 1, 7, 5, "resena de prueba", false⟩, ⟨8, 1, 8, 4, "resena de prueba", false⟩,
       ⟨9, 1, 9, 4, "resena de prueba", false⟩, ⟨10, 1, 10, 4, "resena de prueba", false⟩,
       ⟨11, 1, 11, 4, "resena de prueba", false⟩, ⟨12, 1, 12, 4, "resena de prueba", false⟩,
       ⟨13, 1, 13, 4, "resena de prueba", false⟩, ⟨14, 1, 14, 4, "resena de prueba", false⟩,
       ⟨15, 1, 15, 4, "resena de prueba", false⟩, ⟨16, 1, 16, 4, "resena de prueba", false⟩,
       ⟨17, 1, 17, 4, "resena de prueba", false⟩, ⟨18, 1, 18, 4, "resena de prueba", false⟩,
       ⟨19, 1, 19, 4, "resena de prueba", false⟩, ⟨20, 1, 20, 4, "resena de prueba", false⟩],
    usuarios := [1, 2, 3, 4, 5, 6, 7, 8, 9, 10, 11, 12, 13, 14, 15, 16, 17, 18, 19, 20],
    nextCartId := 1, nextItemId := 1, nextResenaId := 21 }

/-- An active cart owned by user 7 that also carries a session token, plus
a second active cart matching only the session token. -/
def dbDosCarritos : DB :=
  { productos := [],
    carts := [⟨1, some 7, some "otra", true⟩, ⟨2, none, some "s", true⟩],
    items := [], resenas := [], usuarios := [7],
    nextCartId := 3, nextItemId := 1, nextResenaId := 1 }

/-- No cart at all for user 9 or session "nueva". -/
def dbSinCarritos : DB :=
  { productos := [], carts := [], items := [], resenas := [], usuarios := [9],
    nextCartId := 1, nextItemId := 1, nextResenaId := 1 }

/-- The reviews of one product: `Resena.query.filter_by(producto_id=...)`. -/
def resenasDe (db : DB) (pid : Nat) : List Resena :=
  db.resenas.filter (fun r => r.producto_id == pid)

/-- How many reviews of the product carry the star rating `k`. -/
def cuentaCalificacion (db : DB) (pid : Nat) (k : Int) : Nat :=
  ((resenasDe db pid).filter (fun r => r.calificacion == k)).length

/-- Well-formedness of the `cart_items` table: primary keys are unique, and
(as `agregar_item_carrito` guarantees by construction) no cart holds two rows
for the same product. -/
def WFitems (l : List CartItem) : Prop :=
  l.Pairwise (fun a b => a.id ≠ b.id ∧ (a.cart_id ≠ b.cart_id ∨ a.producto_id ≠ b.producto_id))

/-! ## Claims -/


/-! ## Claims -/

/-- `rhe` is the identity on integers. -/
theorem rhe_intCast (n : Int) : rhe (n : ℚ) = n := by
  unfold rhe
  norm_num

/-- Unfolding `toDouble` once the binade of `q` is known: for
`2^e ≤ |q| < 2^(e+1)` with `e` in the normal range, the rounding grid is
`2^(e-52)`. -/
theorem toDouble_eval (q : ℚ) (e : Int) (h1 : (2 : ℚ) ^ e ≤ |q|)
    (h2 : |q| < 2 ^ (e + 1)) (he : -1022 ≤ e) :
    toDouble q = (rhe (q / 2 ^ (e - 52)) : ℚ) * 2 ^ (e - 52) := by
  have hq : q ≠ 0 := by
    intro h
    rw [h, abs_zero] at h1
    have := zpow_pos (by norm_num : (0 : ℚ) < 2) e
    linarith
  have habs : 0 < |q| := abs_pos.mpr hq
  have hlog : Int.log 2 |q| = e := by
    have hle : e ≤ Int.log 2 |q| := by
      rw [← Int.zpow_le_iff_le_log (by norm_num) habs]
      exact_mod_cast h1
    have hlt : Int.log 2 |q| < e + 1 := by
      rw [← Int.lt_zpow_iff_log_lt (by norm_num) habs]
      exact_mod_cast h2
    omega
  unfold toDouble
  rw [if_neg hq, hlog, max_eq_left (by omega)]

/-- A dyadic rational `m · 2^k` with a 53-bit significand is a representable
double, so `toDouble` fixes it. -/
theorem toDouble_dyadic (m k : Int) (hm : |m| < 2 ^ 53) (hk : -1074 ≤ k) :
    toDouble ((m : ℚ) * 2 ^ k) = (m : ℚ) * 2 ^ k := by
  by_cases hm0 : m = 0
  · subst hm0
    simp [toDouble]
  · have h2k : (0 : ℚ) < 2 ^ k := zpow_pos (by norm_num) k
    have hq : (m : ℚ) * 2 ^ k ≠ 0 :=
      mul_ne_zero (Int.cast_ne_zero.mpr hm0) (ne_of_gt h2k)
    have habs0 : 0 < |(m : ℚ) * 2 ^ k| := abs_pos.mpr hq
    have hmq : |(m : ℚ)| < 2 ^ (53 : Int) := by
      rw [← Int.cast_abs]
      calc ((|m| : Int) : ℚ) < ((2 ^ 53 : Int) : ℚ) := by exact_mod_cast hm
        _ = 2 ^ (53 : Int) := by norm_num
    have hub : |(m : ℚ) * 2 ^ k| < 2 ^ (k + 53) := by
      rw [abs_mul, abs_of_pos h2k]
      calc |(m : ℚ)| * 2 ^ k < 2 ^ (53 : Int) * 2 ^ k :=
            mul_lt_mul_of_pos_right hmq h2k
        _ = 2 ^ (k + 53) := by
            rw [← zpow_add₀ (by norm_num : (2 : ℚ) ≠ 0)]
            ring_nf
    have helt : Int.log 2 |(m : ℚ) * 2 ^ k| < k + 53 := by
      rw [← Int.lt_zpow_iff_log_lt (by norm_num) habs0]
      exact_mod_cast hub
    unfold toDouble
    rw [if_neg hq]
    have hEk : max (Int.log 2 |(m : ℚ) * 2 ^ k| - 52) (-1074) ≤ k :=
      max_le (by omega) (by omega)
    obtain ⟨d, hd⟩ : ∃ d : ℕ,
        k - max (Int.log 2 |(m : ℚ) * 2 ^ k| - 52) (-1074) = (d : Int) :=
      ⟨_, (Int.toNat_of_nonneg (by omega)).symm⟩
    have hgrid : (m : ℚ) * 2 ^ k / 2 ^ max (Int.log 2 |(m : ℚ) * 2 ^ k| - 52) (-1074)
        = ((m * 2 ^ d : Int) : ℚ) := by
      push_cast
      rw [div_eq_iff (ne_of_gt (zpow_pos (by norm_num : (0 : ℚ) < 2) _))]
      rw [mul_assoc, ← zpow_natCast (2 : ℚ) d,
        ← zpow_add₀ (by norm_num : (2 : ℚ) ≠ 0)]
      rw [show (d : Int) + max (Int.log 2 |(m : ℚ) * 2 ^ k| - 52) (-1074) = k by omega]
    rw [hgrid, rhe_intCast]
    push_cast
    rw [mul_assoc, ← zpow_natCast (2 : ℚ) d,
      ← zpow_add₀ (by norm_num : (2 : ℚ) ≠ 0)]
    rw [show (d : Int) + max (Int.log 2 |(m : ℚ) * 2 ^ k| - 52) (-1074) = k by omega]

/-- Integers below 2^53 in magnitude are exactly representable doubles. -/
theorem toDouble_intCast (n : Int) (hn : |n| < 2 ^ 53) :
    toDouble (n : ℚ) = (n : ℚ) := by
  have h := toDouble_dyadic n 0 hn (by norm_num)
  simpa using h

/-- `toDouble` at small integer literals, in the form the proofs use. -/
theorem toDouble_num (n : Int) (q : ℚ) (hq : q = (n : ℚ)) (hn : |n| < 2 ^ 53) :
    toDouble q = q := by
  rw [hq, toDouble_intCast n hn]

/-- The double product `3 * 0.1`: the tie at 5404319552844595.5 ulps breaks
to even, giving 0.30000000000000004. -/
theorem toDouble_tres_d01 : toDouble ((3 : ℚ) * d01) = 5404319552844596 / 2 ^ 54 := by
  have h3 : (3 : ℚ) * d01 = 10808639105689191 / 2 ^ 55 := by norm_num [d01]
  have habs : |(3 : ℚ) * d01| = 10808639105689191 / 2 ^ 55 := by
    rw [h3, abs_of_pos (by norm_num)]
  rw [toDouble_eval _ (-2) (by rw [habs]; norm_num) (by rw [habs]; norm_num)
    (by norm_num)]
  norm_num [h3, rhe]

/-- Dividing that product by 100 rounds to 0.0030000000000000005. -/
theorem toDouble_tres_div100 :
    toDouble ((5404319552844596 : ℚ) / 2 ^ 54 / 100) = 6917529027641083 / 2 ^ 61 := by
  have habs : |(5404319552844596 : ℚ) / 2 ^ 54 / 100|
      = 5404319552844596 / 2 ^ 54 / 100 := by
    rw [abs_of_pos (by norm_num)]
  rw [toDouble_eval _ (-9) (by rw [habs]; norm_num) (by rw [habs]; norm_num)
    (by norm_num)]
  norm_num [rhe]

/-- The double product `17000 * 0.1` is exactly 1700 (the error of the exact
product 1700 + 3400·2⁻⁵⁵ is below half an ulp). -/
theorem toDouble_ejemplo_d01 : toDouble ((17000 : ℚ) * d01) = 1700 := by
  have h3 : (17000 : ℚ) * d01 = 61248954932238749000 / 2 ^ 55 := by norm_num [d01]
  have habs : |(17000 : ℚ) * d01| = 61248954932238749000 / 2 ^ 55 := by
    rw [h3, abs_of_pos (by norm_num)]
  rw [toDouble_eval _ 10 (by rw [habs]; norm_num) (by rw [habs]; norm_num)
    (by norm_num)]
  norm_num [h3, rhe]

/-- Branch-free description of `calcular_totales_carrito` for an existing
cart, with every float operation explicit. -/
theorem calcular_eq (db : DB) (cid : Nat) (cart : Cart)
    (h : getCart db cid = some cart) :
    calcular_totales_carrito cid db =
      ⟨toDouble ((cartSubtotalCents db cid : ℚ) / 100),
       toDouble (toDouble (toDouble (cartSubtotalCents db cid : ℚ) * d01) / 100),
       toDouble ((Int.cast (if cartSubtotalCents db cid ≥ 100000 then (0 : Int) else 1500) : ℚ) / 100),
       toDouble (toDouble (toDouble (toDouble (cartSubtotalCents db cid : ℚ) +
           toDouble (toDouble (cartSubtotalCents db cid : ℚ) * d01)) +
           toDouble (Int.cast (if cartSubtotalCents db cid ≥ 100000 then (0 : Int) else 1500) : ℚ)) / 100),
       cartTotalItems db cid,
       decide (cartSubtotalCents db cid ≥ 100000)⟩ := by
  have hid : cart.id = cid := by
    unfold getCart at h
    simpa using List.find?_some h
  unfold calcular_totales_carrito
  rw [h]
  simp only [hid]
  rfl

/-- The spec's example cart: subtotal 17000¢ is small enough that every float
step is exact, giving the displayed dictionary ⟨170, 17, 15, 202, 4, false⟩. -/
theorem totales_ejemplo : calcular_totales_carrito 1 dbEjemploTotales =
    ⟨170, 17, 15, 202, 4, false⟩ := by
  rw [calcular_eq dbEjemploTotales 1 ⟨1, some 1, none, true⟩ rfl,
    show cartSubtotalCents dbEjemploTotales 1 = 17000 from by decide,
    show cartTotalItems dbEjemploTotales 1 = 4 from by decide]
  have c1 : ((17000 : Int) : ℚ) = 17000 := by norm_num
  have c2 : (Int.cast (1500 : Int) : ℚ) = 1500 := by norm_num
  simp only [Totales.mk.injEq]
  rw [if_neg (by norm_num : ¬((17000 : Int) ≥ 100000)), c1, c2]
  rw [toDouble_num 17000 (17000 : ℚ) (by norm_num) (by norm_num),
    toDouble_ejemplo_d01,
    toDouble_num 1500 (1500 : ℚ) (by norm_num) (by norm_num),
    show (17000 : ℚ) + 1700 = 18700 from by norm_num,
    toDouble_num 18700 (18700 : ℚ) (by norm_num) (by norm_num),
    show (18700 : ℚ) + 1500 = 20200 from by norm_num,
    toDouble_num 170 ((17000 : ℚ) / 100) (by norm_num) (by norm_num),
    toDouble_num 17 ((1700 : ℚ) / 100) (by norm_num) (by norm_num),
    toDouble_num 15 ((1500 : ℚ) / 100) (by norm_num) (by norm_num),
    toDouble_num 20200 (20200 : ℚ) (by norm_num) (by norm_num),
    toDouble_num 202 ((20200 : ℚ) / 100) (by norm_num) (by norm_num)]
  norm_num

/-- **C1 (counterexample).** A cart with subtotal 3 cents refutes "tax is
exactly 10 % of the subtotal": the program computes the double
`3 * 0.1 = 0.30000000000000004` and displays
`0.0030000000000000005 ≠ 0.003`. -/
theorem C1_counterexample :
    cartSubtotalCents dbTresCentavos 1 = 3 ∧
    (calcular_totales_carrito 1 dbTresCentavos).impuestos =
      6917529027641083 / 2 ^ 61 ∧
    (6917529027641083 : ℚ) / 2 ^ 61 ≠ 3 / 10 / 100 := by
  refine ⟨by decide, ?_, by norm_num⟩
  rw [calcular_eq dbTresCentavos 1 ⟨1, some 1, none, true⟩ rfl]
  show toDouble (toDouble (toDouble ((cartSubtotalCents dbTresCentavos 1 : ℚ)) * d01) / 100)
      = 6917529027641083 / 2 ^ 61
  rw [show cartSubtotalCents dbTresCentavos 1 = 3 from by decide,
    show ((3 : Int) : ℚ) = 3 from by norm_num,
    toDouble_num 3 (3 : ℚ) (by norm_num) (by norm_num),
    toDouble_tres_d01, toDouble_tres_div100]

/-- **C1 (amended).** For every existing cart whose cents subtotal S fits in
53 bits, `calcular_totales_carrito` displays: subtotal = the double S/100;
tax = the double S·0.1 divided (as doubles) by 100 — exactly 10 % of S only
when the product S·0.1 is exactly representable, as in the spec's example,
and not in general; shipping = exactly 15 (i.e. 1500¢) iff S < 100000¢ and
0 otherwise; total = the left-to-right double sum S + tax + shipping divided
by 100; and the free-shipping flag iff S ≥ 100000.  On the example cart
(5000¢×3, 2000¢×1) the subtotal is 17000¢ and every rounding is exact,
giving ⟨170, 17, 15, 202, 4, false⟩, i.e. displayed total 202.00. -/
theorem C1_calcular_totales (db : DB) (cid : Nat) (cart : Cart)
    (h : getCart db cid = some cart)
    (hS : |cartSubtotalCents db cid| < 2 ^ 53) :
    ((calcular_totales_carrito cid db).subtotal =
        toDouble ((cartSubtotalCents db cid : ℚ) / 100) ∧
     (calcular_totales_carrito cid db).impuestos =
        toDouble (toDouble ((cartSubtotalCents db cid : ℚ) * d01) / 100) ∧
     (calcular_totales_carrito cid db).envio =
        (if cartSubtotalCents db cid < 100000 then (15 : ℚ) else 0) ∧
     (calcular_totales_carrito cid db).total =
        toDouble (toDouble (toDouble ((cartSubtotalCents db cid : ℚ) +
            toDouble ((cartSubtotalCents db cid : ℚ) * d01)) +
          (if cartSubtotalCents db cid < 100000 then (1500 : ℚ) else 0)) / 100) ∧
     (calcular_totales_carrito cid db).total_items = cartTotalItems db cid ∧
     ((calcular_totales_carrito cid db).envio_gratis = true ↔
        100000 ≤ cartSubtotalCents db cid)) ∧
    (cartSubtotalCents dbEjemploTotales 1 = 17000 ∧
     calcular_totales_carrito 1 dbEjemploTotales = ⟨170, 17, 15, 202, 4, false⟩) := by
  have hrec := calcular_eq db cid cart h
  have hfix := toDouble_intCast (cartSubtotalCents db cid) hS
  refine ⟨⟨?_, ?_, ?_, ?_, ?_, ?_⟩, by decide, totales_ejemplo⟩
  · exact congrArg Totales.subtotal hrec
  · have h2 : (calcular_totales_carrito cid db).impuestos =
        toDouble (toDouble (toDouble ((cartSubtotalCents db cid : ℚ)) * d01) / 100) :=
      congrArg Totales.impuestos hrec
    rw [hfix] at h2
    exact h2
  · have h3 : (calcular_totales_carrito cid db).envio =
        toDouble ((Int.cast (if cartSubtotalCents db cid ≥ 100000 then (0 : Int) else 1500)
          : ℚ) / 100) :=
      congrArg Totales.envio hrec
    by_cases hc : cartSubtotalCents db cid < 100000
    · rw [if_neg (by omega), show (Int.cast (1500 : Int) : ℚ) = 1500 from by norm_num,
        toDouble_num 15 ((1500 : ℚ) / 100) (by norm_num) (by norm_num)] at h3
      rw [h3, if_pos hc]
      norm_num
    · rw [if_pos (by omega), show (Int.cast (0 : Int) : ℚ) = 0 from by norm_num] at h3
      rw [h3, if_neg hc]
      norm_num [toDouble]
  · have h4 : (calcular_totales_carrito cid db).total =
        toDouble (toDouble (toDouble (toDouble ((cartSubtotalCents db cid : ℚ)) +
            toDouble (toDouble ((cartSubtotalCents db cid : ℚ)) * d01)) +
            toDouble (Int.cast (if cartSubtotalCents db cid ≥ 100000 then (0 : Int) else 1500)
              : ℚ)) / 100) :=
      congrArg Totales.total hrec
    rw [hfix] at h4
    by_cases hc : cartSubtotalCents db cid < 100000
    · rw [if_neg (by omega), show (Int.cast (1500 : Int) : ℚ) = 1500 from by norm_num,
        toDouble_num 1500 (1500 : ℚ) (by norm_num) (by norm_num)] at h4
      rw [h4, if_pos hc]
    · rw [if_pos (by omega), show (Int.cast (0 : Int) : ℚ) = 0 from by norm_num,
        show toDouble (0 : ℚ) = 0 from by norm_num [toDouble]] at h4
      rw [h4, if_neg hc]
  · exact congrArg Totales.total_items hrec
  · have h6 : (calcular_totales_carrito cid db).envio_gratis =
        decide (cartSubtotalCents db cid ≥ 100000) :=
      congrArg Totales.envio_gratis hrec
    rw [h6]
    simp [ge_iff_le]

/-- Witness for C1 (amended) at the spec's example cart. -/
theorem C1_calcular_totales_witness :
    (calcular_totales_carrito 1 dbEjemploTotales).subtotal =
      toDouble ((cartSubtotalCents dbEjemploTotales 1 : ℚ) / 100) ∧
    (calcular_totales_carrito 1 dbEjemploTotales).envio = 15 := by
  have h := C1_calcular_totales dbEjemploTotales 1 ⟨1, some 1, none, true⟩ rfl (by decide)
  refine ⟨h.1.1, ?_⟩
  rw [h.1.2.2.1, if_pos (by decide)]

/-- **C10.** When `obtener_o_crear_carrito` is given both a (truthy) user id
and a session id, the lookup matches an active cart by user id only — the
session id plays no part in the query — and when no active cart of that user
exists, the newly created cart records both identifiers. -/
theorem C10_obtener_o_crear (db : DB) (u : Nat) (s : String) (hu : u ≠ 0) :
    (∀ c, db.carts.find? (fun c => c.activo && c.usuario_id == some u) = some c →
      obtener_o_crear_carrito (some u) (some s) db = (some c, db)) ∧
    (db.carts.find? (fun c => c.activo && c.usuario_id == some u) = none →
      ∃ c db', obtener_o_crear_carrito (some u) (some s) db = (some c, db') ∧
        c.usuario_id = some u ∧ c.session_id = some s ∧ c.activo = true) := by
  have ht : truthyId (some u) = true := by simp [truthyId, hu]
  constructor
  · intro c hc
    unfold obtener_o_crear_carrito
    rw [ht, hc]
    simp
  · intro hnone
    refine ⟨⟨db.nextCartId, some u, some s, true⟩,
      { db with carts := db.carts ++ [⟨db.nextCartId, some u, some s, true⟩],
                nextCartId := db.nextCartId + 1 }, ?_, rfl, rfl, rfl⟩
    unfold obtener_o_crear_carrito
    rw [ht, hnone]
    simp

/-- Witness for C10: an active cart of user 7 carrying a different session
token is returned as-is, and for user 9 with no cart a fresh cart records
both identifiers. -/
theorem C10_obtener_o_crear_witness :
    obtener_o_crear_carrito (some 7) (some "s") dbDosCarritos =
      (some ⟨1, some 7, some "otra", true⟩, dbDosCarritos) ∧
    (∃ c db', obtener_o_crear_carrito (some 9) (some "nueva") dbSinCarritos =
      (some c, db') ∧ c.usuario_id = some 9 ∧ c.session_id = some "nueva" ∧
      c.activo = true) :=
  ⟨(C10_obtener_o_crear dbDosCarritos 7 "s" (by decide)).1 _ rfl,
   (C10_obtener_o_crear dbSinCarritos 9 "nueva" (by decide)).2 rfl⟩
/-- **C3 (counterexample).** `agregar_item_carrito` called with quantity −1 on
a cart already holding 2 units of the product does NOT fail: it returns the
item and decreases the stored quantity to 1, refuting the claim that every
call with quantity ≤ 0 fails and leaves the cart unmodified. -/
theorem C3_counterexample :
    (-1 : Int) ≤ 0 ∧
    (agregar_item_carrito 1 1 (-1) dbItemExistente).1 = some ⟨1, 1, 1, 1, 100⟩ ∧
    (agregar_item_carrito 1 1 (-1) dbItemExistente).2.items = [⟨1, 1, 1, 1, 100⟩] ∧
    dbItemExistente.items = [⟨1, 1, 1, 2, 100⟩] := by decide

/-- **C3 (amended).** A call of `agregar_item_carrito` with quantity ≤ 0 fails
with the state unchanged whenever the product has no existing item in the cart
(the insert would violate the `cantidad > 0` CHECK constraint); when an item
already exists, a non-positive quantity can succeed by merging, but every
successful call leaves the returned item with a strictly positive quantity. -/
theorem C3_agregar_cantidad_no_positiva (db : DB) (cid pid : Nat) (c : Int) :
    (findItem db.items cid pid = none → c ≤ 0 →
      agregar_item_carrito cid pid c db = (none, db)) ∧
    (∀ it db', agregar_item_carrito cid pid c db = (some it, db') →
      0 < it.cantidad) := by
  constructor
  · intro hnone hc
    unfold agregar_item_carrito
    split
    · rfl
    · split
      · rfl
      · split
        · rfl
        · split
          · rfl
          · split
            · rename_i heq
              rw [hnone] at heq
              cases heq
            · rw [if_pos]
              simp [hc]
  · intro it db' hsucc
    unfold agregar_item_carrito at hsucc
    split at hsucc
    · simp at hsucc
    · split at hsucc
      · simp at hsucc
      · split at hsucc
        · simp at hsucc
        · split at hsucc
          · simp at hsucc
          · split at hsucc
            · rename_i producto _ _ existing_item _
              split at hsucc
              · simp at hsucc
              · split at hsucc
                · simp at hsucc
                · rename_i hpos
                  have hfst := congrArg Prod.fst hsucc
                  simp only [Prod.fst] at hfst
                  injection hfst with hit
                  rw [← hit]
                  show 0 < existing_item.cantidad + c
                  omega
            · split at hsucc
              · simp at hsucc
              · rename_i producto _ _ _ hguard
                have hfst := congrArg Prod.fst hsucc
                simp only [Prod.fst] at hfst
                injection hfst with hit
                rw [← hit]
                show 0 < c
                simp only [Bool.or_eq_true, decide_eq_true_eq, not_or] at hguard
                omega
/-- **C5.** Whenever the requested quantity plus the quantity of that product
already present in the cart exceeds the product's stock,
`agregar_item_carrito` fails and returns the database unchanged. -/
theorem C5_agregar_stock_excedido (db : DB) (cid pid : Nat) (c : Int) (p : Producto)
    (hp : getProducto db pid = some p)
    (hover : p.stock < c + ((findItem db.items cid pid).map CartItem.cantidad).getD 0) :
    agregar_item_carrito cid pid c db = (none, db) := by
  unfold agregar_item_carrito
  split
  · rfl
  · split
    · rfl
    · rename_i producto heq
      rw [hp] at heq
      injection heq with heq
      subst heq
      split
      · rfl
      · split
        · rfl
        · rename_i hstock
          split
          · rename_i ex hex
            rw [hex] at hover
            have hov : p.stock < c + ex.cantidad := by simpa using hover
            rw [if_pos (by omega)]
          · rename_i hex
            rw [hex] at hover
            have hov : p.stock < c := by simpa using hover
            exact absurd hov hstock

/-- Witness for C5: cart 1 holds 2 units of product 1 (stock 10); requesting
9 more exceeds the stock, so the call fails and the state is unchanged. -/
theorem C5_agregar_stock_excedido_witness :
    agregar_item_carrito 1 1 9 dbItemExistente = (none, dbItemExistente) :=
  C5_agregar_stock_excedido dbItemExistente 1 1 9 ⟨1, 100, 10, true⟩ rfl (by decide)
/-- `bumpFirst` never adds or removes rows. -/
theorem bumpFirst_length (q : CartItem → Bool) (d : Int) (l : List CartItem) :
    (bumpFirst q d l).length = l.length := by
  induction l with
  | nil => rfl
  | cons a t ih =>
    unfold bumpFirst
    split <;> simp [ih]

/-- After bumping the first match of a quantity-blind predicate, the first
match is the old one with the quantity increased. -/
theorem find?_bumpFirst (q : CartItem → Bool) (d : Int) (l : List CartItem)
    (ex : CartItem)
    (hq : ∀ it : CartItem, q it = q { it with cantidad := it.cantidad + d })
    (h : l.find? q = some ex) :
    (bumpFirst q d l).find? q = some { ex with cantidad := ex.cantidad + d } := by
  induction l with
  | nil => simp at h
  | cons a t ih =>
    by_cases hqa : q a
    · rw [List.find?_cons_of_pos _ hqa] at h
      injection h with h
      subst h
      unfold bumpFirst
      rw [if_pos hqa]
      exact List.find?_cons_of_pos _ ((hq a) ▸ hqa)
    · rw [List.find?_cons_of_neg _ hqa] at h
      unfold bumpFirst
      rw [if_neg hqa]
      rw [List.find?_cons_of_neg _ hqa]
      exact ih h

/-- **C4.** When the product already sits in the cart, a successful
`agregar_item_carrito` adds the requested quantity to the existing item —
the item count of the database is unchanged and the cart's item for the
product now carries the summed quantity; when the product is not in the cart,
a new item is appended whose frozen `precio_unitario` is the product's
current price; and concretely, adding product 1 with quantity 2 and then
quantity 3 to the empty cart yields exactly one item with quantity 5. -/
theorem C4_agregar_fusiona (db : DB) (cid pid : Nat) (c : Int) (cart : Cart)
    (p : Producto) (hcart : getCart db cid = some cart)
    (hp : getProducto db pid = some p) (hact : p.activo = true) :
    (∀ ex, findItem db.items cid pid = some ex → 0 < ex.cantidad → 0 < c →
      ex.cantidad + c ≤ p.stock →
      ∃ db', agregar_item_carrito cid pid c db =
          (some { ex with cantidad := ex.cantidad + c }, db') ∧
        db'.items.length = db.items.length ∧
        findItem db'.items cid pid = some { ex with cantidad := ex.cantidad + c }) ∧
    (findItem db.items cid pid = none → 0 < c → c ≤ p.stock →
      0 ≤ p.precio_centavos →
      ∃ item db', agregar_item_carrito cid pid c db = (some item, db') ∧
        item.cantidad = c ∧ item.precio_unitario = p.precio_centavos ∧
        db'.items = db.items ++ [item]) ∧
    ((agregar_item_carrito 1 1 2 dbCarritoVacio).2.items = [⟨1, 1, 1, 2, 5000⟩] ∧
     (agregar_item_carrito 1 1 3 (agregar_item_carrito 1 1 2 dbCarritoVacio).2).2.items =
       [⟨1, 1, 1, 5, 5000⟩]) := by
  refine ⟨?_, ?_, by decide, by decide⟩
  · intro ex hex hexpos hcpos hle
    unfold agregar_item_carrito
    split
    · rename_i h
      rw [hcart] at h
      cases h
    · split
      · rename_i h
        rw [hp] at h
        cases h
      · rename_i producto h
        rw [hp] at h
        injection h with h
        subst h
        split
        · rename_i h
          rw [hact] at h
          simp at h
        · split
          · rename_i h
            exact absurd h (by omega)
          · split
            · rename_i ex2 hex2
              rw [hex] at hex2
              injection hex2 with hex2
              subst hex2
              rw [if_neg (by omega), if_neg (by omega)]
              refine ⟨_, rfl, bumpFirst_length _ _ _, ?_⟩
              unfold findItem at hex ⊢
              exact find?_bumpFirst _ c _ _ (fun it => rfl) hex
            · rename_i hex2
              rw [hex] at hex2
              cases hex2
  · intro hnone hcpos hle hprecio
    unfold agregar_item_carrito
    split
    · rename_i h
      rw [hcart] at h
      cases h
    · split
      · rename_i h
        rw [hp] at h
        cases h
      · rename_i producto h
        rw [hp] at h
        injection h with h
        subst h
        split
        · rename_i h
          rw [hact] at h
          simp at h
        · split
          · rename_i h
            exact absurd h (by omega)
          · split
            · rename_i ex2 hex2
              rw [hnone] at hex2
              cases hex2
            · rw [if_neg (by
                simp only [Bool.or_eq_true, decide_eq_true_eq, not_or]
                exact ⟨by omega, by omega⟩)]
              exact ⟨_, _, rfl, rfl, rfl, rfl⟩

/-- Witness for C4: merging 3 units into the existing 2-unit item of
`dbItemExistente`, and inserting a fresh item into the empty cart of
`dbCarritoVacio` at the product's current price. -/
theorem C4_agregar_fusiona_witness :
    (∃ db', agregar_item_carrito 1 1 3 dbItemExistente =
        (some ⟨1, 1, 1, 5, 100⟩, db') ∧
      db'.items.length = dbItemExistente.items.length ∧
      findItem db'.items 1 1 = some ⟨1, 1, 1, 5, 100⟩) ∧
    (∃ item db', agregar_item_carrito 1 1 2 dbCarritoVacio = (some item, db') ∧
      item.cantidad = 2 ∧ item.precio_unitario = 5000 ∧
      db'.items = dbCarritoVacio.items ++ [item]) := by
  have h1 := (C4_agregar_fusiona dbItemExistente 1 1 3 ⟨1, some 7, none, true⟩
    ⟨1, 100, 10, true⟩ rfl rfl rfl).1 ⟨1, 1, 1, 2, 100⟩ rfl (by decide) (by decide)
    (by decide)
  have h2 := (C4_agregar_fusiona dbCarritoVacio 1 1 2 ⟨1, some 7, none, true⟩
    ⟨1, 5000, 10, true⟩ rfl rfl rfl).2.1 rfl (by decide) (by decide) (by decide)
  exact ⟨h1, h2⟩
/-- `find?` skips a prefix in which nothing matches. -/
theorem find?_append_of_none {α : Type} (p : α → Bool) (l₁ l₂ : List α)
    (h : l₁.find? p = none) : (l₁ ++ l₂).find? p = l₂.find? p := by
  induction l₁ with
  | nil => rfl
  | cons a t ih =>
    by_cases hpa : p a
    · rw [List.find?_cons_of_pos _ hpa] at h
      cases h
    · rw [List.find?_cons_of_neg _ hpa] at h
      rw [List.cons_append, List.find?_cons_of_neg _ hpa]
      exact ih h

/-- **C7.** `crear_resena` rejects every rating outside [1,5], every comment
shorter than 10 characters after stripping, and every (product, user) pair
that already has a review — in each case returning failure with the state
unchanged; a successful call implies the rating and comment were valid, the
product and the user exist, no prior review existed, and
`verificar_usuario_puede_resenar` returns `false` for the pair on the
resulting state. -/
theorem C7_crear_resena (db : DB) (pid uid : Nat) (cal : Int) (com : String)
    (cv : Bool) :
    (¬(1 ≤ cal ∧ cal ≤ 5) → crear_resena pid uid cal com cv db = (none, db)) ∧
    ((pyStrip com).length < 10 → crear_resena pid uid cal com cv db = (none, db)) ∧
    ((findResena db.resenas pid uid).isSome →
      crear_resena pid uid cal com cv db = (none, db)) ∧
    (∀ r db', crear_resena pid uid cal com cv db = (some r, db') →
      ((1 ≤ cal ∧ cal ≤ 5) ∧ 10 ≤ (pyStrip com).length ∧
       (getProducto db pid).isSome ∧ uid ∈ db.usuarios ∧
       findResena db.resenas pid uid = none ∧
       verificar_usuario_puede_resenar pid uid db' = false)) := by
  refine ⟨?_, ?_, ?_, ?_⟩
  · intro hcal
    unfold crear_resena
    repeat' split
    all_goals try rfl
    all_goals (rename_i g1 g2 g3 g4 g5 g6; simp at g2; exact absurd g2 hcal)
  · intro hlen
    unfold crear_resena
    repeat' split
    all_goals rfl
  · intro hdup
    unfold crear_resena
    repeat' split
    all_goals rfl
  · intro r db' hsucc
    unfold crear_resena at hsucc
    repeat' split at hsucc
    all_goals try (exact Option.noConfusion (congrArg Prod.fst hsucc))
    rename_i h1 h2 h3 h4 h5 h6
    have hsnd := congrArg Prod.snd hsucc
    simp only [Prod.snd] at hsnd
    subst hsnd
    simp at h2 h4 h5 h6
    refine ⟨h2, by omega, ?_, ?_, ?_, ?_⟩
    · simpa [Option.isSome_iff_ne_none] using h4
    · simpa using h5
    · exact h6
    · unfold verificar_usuario_puede_resenar findResena
      rw [find?_append_of_none _ _ _ (by simpa [findResena] using h6)]
      simp [List.find?]

/-- Witness for C7: rating 7 is rejected, a short comment is rejected, and a
valid review by user 4 on product 1 succeeds, after which the pair cannot
review again. -/
theorem C7_crear_resena_witness :
    crear_resena 1 4 7 "muy buen producto" false dbSinResenas = (none, dbSinResenas) ∧
    crear_resena 1 4 5 " corto " false dbSinResenas = (none, dbSinResenas) ∧
    ((1 ≤ (5 : Int) ∧ (5 : Int) ≤ 5) ∧
      10 ≤ (pyStrip "muy buen producto").length ∧
      (getProducto dbSinResenas 1).isSome ∧ 4 ∈ dbSinResenas.usuarios ∧
      findResena dbSinResenas.resenas 1 4 = none ∧
      verificar_usuario_puede_resenar 1 4
        { dbSinResenas with
            resenas := [⟨1, 1, 4, 5, "muy buen producto", false⟩],
            nextResenaId := 2 } = false) := by
  refine ⟨?_, ?_, ?_⟩
  · exact (C7_crear_resena dbSinResenas 1 4 7 "muy buen producto" false).1 (by decide)
  · exact (C7_crear_resena dbSinResenas 1 4 5 " corto " false).2.1 (by decide)
  · exact (C7_crear_resena dbSinResenas 1 4 5 "muy buen producto" false).2.2.2
      ⟨1, 1, 4, 5, "muy buen producto", false⟩ _ (by decide)
/-- `toDouble` fixes any value recognisable as a small dyadic. -/
theorem toDouble_dyadic_num (m k : Int) (q : ℚ) (hq : q = (m : ℚ) * 2 ^ k)
    (hm : |m| < 2 ^ 53) (hk : -1074 ≤ k) : toDouble q = q := by
  rw [hq, toDouble_dyadic m k hm hk]

/-- The double quotient 87/20: strictly below the decimal midpoint 4.35. -/
theorem toDouble_87_20 : toDouble ((87 : ℚ) / 20) = 4897664594765414 / 2 ^ 50 := by
  have habs : |(87 : ℚ) / 20| = 87 / 20 := by rw [abs_of_pos (by norm_num)]
  rw [toDouble_eval _ 2 (by rw [habs]; norm_num) (by rw [habs]; norm_num)
    (by norm_num)]
  norm_num [rhe]

/-- Ratings all within 1–5 are partitioned exactly by the five star
counters. -/
theorem filter_calificacion_partition (l : List Resena)
    (h : ∀ r ∈ l, 1 ≤ r.calificacion ∧ r.calificacion ≤ 5) :
    (l.filter (fun r => r.calificacion == 1)).length +
    (l.filter (fun r => r.calificacion == 2)).length +
    (l.filter (fun r => r.calificacion == 3)).length +
    (l.filter (fun r => r.calificacion == 4)).length +
    (l.filter (fun r => r.calificacion == 5)).length = l.length := by
  induction l with
  | nil => rfl
  | cons a t ih =>
    have ha := h a (List.mem_cons_self a t)
    have ht := ih (fun r hr => h r (List.mem_cons_of_mem _ hr))
    simp only [List.filter_cons, List.length_cons]
    have h1 := ha.1
    have h2 := ha.2
    interval_cases hk : a.calificacion <;> simp_all <;> omega

/-- Branch-free description of `obtener_estadisticas_producto`, with the
double divisions and multiplications explicit. -/
theorem estadisticas_eq (db : DB) (pid : Nat) :
    obtener_estadisticas_producto pid db =
      if resenasDe db pid = [] then ⟨0, 0, 0, 0, 0, 0, 0, none⟩
      else
        ⟨(resenasDe db pid).length,
         round1 (toDouble ((((((resenasDe db pid).map (fun r => r.calificacion)).sum : Int)) : ℚ) /
           ((resenasDe db pid).length : ℚ))),
         cuentaCalificacion db pid 1, cuentaCalificacion db pid 2,
         cuentaCalificacion db pid 3, cuentaCalificacion db pid 4,
         cuentaCalificacion db pid 5,
         some (round1 (toDouble (toDouble ((cuentaCalificacion db pid 1 : ℚ) /
                 ((resenasDe db pid).length : ℚ)) * 100)),
               round1 (toDouble (toDouble ((cuentaCalificacion db pid 2 : ℚ) /
                 ((resenasDe db pid).length : ℚ)) * 100)),
               round1 (toDouble (toDouble ((cuentaCalificacion db pid 3 : ℚ) /
                 ((resenasDe db pid).length : ℚ)) * 100)),
               round1 (toDouble (toDouble ((cuentaCalificacion db pid 4 : ℚ) /
                 ((resenasDe db pid).length : ℚ)) * 100)),
               round1 (toDouble (toDouble ((cuentaCalificacion db pid 5 : ℚ) /
                 ((resenasDe db pid).length : ℚ)) * 100)))⟩ := by
  unfold obtener_estadisticas_producto resenasDe cuentaCalificacion
  cases hl : db.resenas.filter (fun r => r.producto_id == pid) with
  | nil => simp
  | cons a t =>
    simp [resenasDe, hl]

/-- The review statistics of product 1 in `dbResenas5543` (ratings
[5,5,4,3]): the quotient 17/4 = 4.25 and the count ratios 0, 1/4 and 1/2 are
all exactly representable doubles, and Python's banker's rounding gives
`round(4.25, 1) = 4.2`. -/
theorem estadisticas_5543 : obtener_estadisticas_producto 1 dbResenas5543 =
    ⟨4, 21 / 5, 0, 0, 1, 1, 2, some (0, 0, 25, 25, 50)⟩ := by
  rw [estadisticas_eq,
    if_neg (by decide : ¬(resenasDe dbResenas5543 1 = [])),
    show (resenasDe dbResenas5543 1).length = 4 from by decide,
    show ((resenasDe dbResenas5543 1).map (fun r => r.calificacion)).sum = 17 from by decide,
    show cuentaCalificacion dbResenas5543 1 1 = 0 from by decide,
    show cuentaCalificacion dbResenas5543 1 2 = 0 from by decide,
    show cuentaCalificacion dbResenas5543 1 3 = 1 from by decide,
    show cuentaCalificacion dbResenas5543 1 4 = 1 from by decide,
    show cuentaCalificacion dbResenas5543 1 5 = 2 from by decide]
  push_cast
  rw [show ((0 : ℚ) / 4) = 0 from by norm_num,
    show toDouble (0 : ℚ) = 0 from by norm_num [toDouble],
    show ((0 : ℚ) * 100) = 0 from by norm_num,
    show toDouble (0 : ℚ) = 0 from by norm_num [toDouble],
    toDouble_dyadic_num 17 (-2) ((17 : ℚ) / 4) (by norm_num) (by norm_num) (by norm_num),
    toDouble_dyadic_num 1 (-2) ((1 : ℚ) / 4) (by norm_num) (by norm_num) (by norm_num),
    toDouble_dyadic_num 1 (-1) ((2 : ℚ) / 4) (by norm_num) (by norm_num) (by norm_num),
    show ((1 : ℚ) / 4) * 100 = 25 from by norm_num,
    show ((2 : ℚ) / 4) * 100 = 50 from by norm_num,
    toDouble_num 25 (25 : ℚ) (by norm_num) (by norm_num),
    toDouble_num 50 (50 : ℚ) (by norm_num) (by norm_num)]
  norm_num [Estadisticas.mk.injEq, round1, rhe]

/-- **C8 (counterexample).** On ratings [5,5,4,3] the computed average is
`round(17/4, 1) = round(4.25, 1) = 4.2` (Python 3 rounds half to even), not
the 4.3 stated by the spec. -/
theorem C8_counterexample :
    (obtener_estadisticas_producto 1 dbResenas5543).promedio = 4.2 ∧
    (4.2 : ℚ) ≠ 4.3 := by
  constructor
  · rw [estadisticas_5543]
    norm_num
  · norm_num

/-- **C8 (amended).** `product_statistics` on ratings [5,5,4,3] returns
total 4, average 4.2 (half-even rounding of 4.25), distribution
(0,0,1,1,2) over stars 1–5 and percentages (0,0,25,25,50). -/
theorem C8_estadisticas_ejemplo :
    obtener_estadisticas_producto 1 dbResenas5543 =
      ⟨4, 4.2, 0, 0, 1, 1, 2, some (0, 0, 25, 25, 50)⟩ := by
  rw [estadisticas_5543]
  norm_num [Estadisticas.mk.injEq]

/-- **C9 (amended).** For every product whose reviews all carry ratings in
1–5, `obtener_estadisticas_producto` returns the review count, the five star
counters (zero for absent ratings, and summing to the total), and — when at
least one review exists — the average obtained by half-even decimal rounding
of the correctly rounded double quotient sum/count, and the per-star
percentages likewise computed from the double ratios; with zero reviews it
returns total 0, average 0.0 and the all-zero distribution, but no
percentages entry. -/
theorem C9_estadisticas (db : DB) (pid : Nat)
    (hrange : ∀ r ∈ resenasDe db pid, 1 ≤ r.calificacion ∧ r.calificacion ≤ 5) :
    ((obtener_estadisticas_producto pid db).total = (resenasDe db pid).length ∧
     (obtener_estadisticas_producto pid db).d1 = cuentaCalificacion db pid 1 ∧
     (obtener_estadisticas_producto pid db).d2 = cuentaCalificacion db pid 2 ∧
     (obtener_estadisticas_producto pid db).d3 = cuentaCalificacion db pid 3 ∧
     (obtener_estadisticas_producto pid db).d4 = cuentaCalificacion db pid 4 ∧
     (obtener_estadisticas_producto pid db).d5 = cuentaCalificacion db pid 5 ∧
     cuentaCalificacion db pid 1 + cuentaCalificacion db pid 2 +
       cuentaCalificacion db pid 3 + cuentaCalificacion db pid 4 +
       cuentaCalificacion db pid 5 = (obtener_estadisticas_producto pid db).total) ∧
    (resenasDe db pid = [] →
      obtener_estadisticas_producto pid db = ⟨0, 0, 0, 0, 0, 0, 0, none⟩) ∧
    (resenasDe db pid ≠ [] →
      (obtener_estadisticas_producto pid db).promedio =
        round1 (toDouble ((((((resenasDe db pid).map (fun r => r.calificacion)).sum : Int)) : ℚ) /
          ((resenasDe db pid).length : ℚ))) ∧
      (obtener_estadisticas_producto pid db).porcentajes =
        some (round1 (toDouble (toDouble ((cuentaCalificacion db pid 1 : ℚ) /
                ((resenasDe db pid).length : ℚ)) * 100)),
              round1 (toDouble (toDouble ((cuentaCalificacion db pid 2 : ℚ) /
                ((resenasDe db pid).length : ℚ)) * 100)),
              round1 (toDouble (toDouble ((cuentaCalificacion db pid 3 : ℚ) /
                ((resenasDe db pid).length : ℚ)) * 100)),
              round1 (toDouble (toDouble ((cuentaCalificacion db pid 4 : ℚ) /
                ((resenasDe db pid).length : ℚ)) * 100)),
              round1 (toDouble (toDouble ((cuentaCalificacion db pid 5 : ℚ) /
                ((resenasDe db pid).length : ℚ)) * 100)))) := by
  rw [estadisticas_eq]
  by_cases hE : resenasDe db pid = []
  · rw [if_pos hE]
    refine ⟨⟨?_, ?_, ?_, ?_, ?_, ?_, ?_⟩, fun _ => rfl, fun hne => absurd hE hne⟩ <;>
      simp [hE, cuentaCalificacion]
  · rw [if_neg hE]
    exact ⟨⟨rfl, rfl, rfl, rfl, rfl, rfl,
        filter_calificacion_partition (resenasDe db pid) hrange⟩,
      fun h => absurd h hE, fun _ => ⟨rfl, rfl⟩⟩

/-- Witness for C9 on the ratings [5,5,4,3] database, plus the 20-review
database summing to 87: the double 87/20 lies strictly below 4.35, so the
average is 4.3 (and not 4.4, which rounding the exact quotient would give). -/
theorem C9_estadisticas_witness :
    (obtener_estadisticas_producto 1 dbResenas5543).total =
      (resenasDe dbResenas5543 1).length ∧
    cuentaCalificacion dbResenas5543 1 1 + cuentaCalificacion dbResenas5543 1 2 +
      cuentaCalificacion dbResenas5543 1 3 + cuentaCalificacion dbResenas5543 1 4 +
      cuentaCalificacion dbResenas5543 1 5 =
      (obtener_estadisticas_producto 1 dbResenas5543).total ∧
    (obtener_estadisticas_producto 1 dbResenas5543).promedio =
      round1 (toDouble ((((((resenasDe dbResenas5543 1).map (fun r => r.calificacion)).sum : Int)) : ℚ) /
        ((resenasDe dbResenas5543 1).length : ℚ))) ∧
    (obtener_estadisticas_producto 1 dbResenas87).promedio = 43 / 10 ∧
    ((43 : ℚ) / 10 ≠ 22 / 5) := by
  have h := C9_estadisticas dbResenas5543 1 (by decide)
  have h87 := C9_estadisticas dbResenas87 1 (by decide)
  refine ⟨h.1.1, h.1.2.2.2.2.2.2, (h.2.2 (by decide)).1, ?_, by norm_num⟩
  rw [(h87.2.2 (by decide)).1,
    show ((resenasDe dbResenas87 1).map (fun r => r.calificacion)).sum = 87 from by decide,
    show (resenasDe dbResenas87 1).length = 20 from by decide]
  push_cast
  rw [toDouble_87_20]
  norm_num [round1, rhe]

/-- **C9 (counterexample).** For a product with zero reviews the returned
dictionary has no percentages entry at all (the zero-review branch of the
source returns only total, average and distribution), refuting the claim
that the result always contains a percentage per rating. -/
theorem C9_counterexample :
    resenasDe dbSinResenas 1 = [] ∧
    obtener_estadisticas_producto 1 dbSinResenas = ⟨0, 0, 0, 0, 0, 0, 0, none⟩ ∧
    (obtener_estadisticas_producto 1 dbSinResenas).porcentajes = none :=
  ⟨rfl, rfl, rfl⟩
/-- The well-formedness relation is symmetric. -/
theorem wfRelSymm : Symmetric (fun a b : CartItem =>
    a.id ≠ b.id ∧ (a.cart_id ≠ b.cart_id ∨ a.producto_id ≠ b.producto_id)) :=
  fun _ _ h => ⟨h.1.symm, h.2.imp Ne.symm Ne.symm⟩

/-- Two distinct rows of a well-formed item table have distinct ids and do not
share a (cart, product) pair. -/
theorem WFitems.distinct {l : List CartItem} (hWF : WFitems l) {a b : CartItem}
    (ha : a ∈ l) (hb : b ∈ l) (hne : a ≠ b) :
    a.id ≠ b.id ∧ (a.cart_id ≠ b.cart_id ∨ a.producto_id ≠ b.producto_id) :=
  List.Pairwise.forall wfRelSymm hWF ha hb hne

/-- In a well-formed table, a (cart, product) pair determines the row. -/
theorem WFitems.cart_prod_inj {l : List CartItem} (hWF : WFitems l)
    {t t' : CartItem} (ht : t ∈ l) (ht' : t' ∈ l)
    (hc : t.cart_id = t'.cart_id) (hp : t.producto_id = t'.producto_id) :
    t = t' := by
  by_contra hne
  rcases (hWF.distinct ht ht' hne).2 with h | h
  exacts [h hc, h hp]

/-- An element not matching the predicate survives `bumpFirst` untouched. -/
theorem mem_bumpFirst_of_neg (p : CartItem → Bool) (d : Int) (L : List CartItem)
    (x : CartItem) (hx : x ∈ L) (hpx : ¬p x = true) : x ∈ bumpFirst p d L := by
  induction L with
  | nil => cases hx
  | cons a t ih =>
    unfold bumpFirst
    rcases List.mem_cons.mp hx with rfl | hxt
    · rw [if_neg hpx]
      exact List.mem_cons_self _ _
    · by_cases hpa : p a
      · rw [if_pos hpa]
        exact List.mem_cons_of_mem _ hxt
      · rw [if_neg hpa]
        exact List.mem_cons_of_mem _ (ih hxt)

/-- The first match of the predicate appears bumped in `bumpFirst`'s output. -/
theorem bumped_mem_bumpFirst (p : CartItem → Bool) (d : Int) (L : List CartItem)
    (t : CartItem) (h : L.find? p = some t) :
    { t with cantidad := t.cantidad + d } ∈ bumpFirst p d L := by
  induction L with
  | nil => cases h
  | cons a tl ih =>
    by_cases hpa : p a
    · rw [List.find?_cons_of_pos _ hpa] at h
      injection h with h
      subst h
      unfold bumpFirst
      rw [if_pos hpa]
      exact List.mem_cons_self _ _
    · rw [List.find?_cons_of_neg _ hpa] at h
      unfold bumpFirst
      rw [if_neg hpa]
      exact List.mem_cons_of_mem _ (ih h)

/-- Every row of `bumpFirst`'s output keeps the id, cart and product of a row
of the input. -/
theorem bumpFirst_shape (p : CartItem → Bool) (d : Int) (L : List CartItem) :
    ∀ x ∈ bumpFirst p d L, ∃ y ∈ L,
      x.id = y.id ∧ x.cart_id = y.cart_id ∧ x.producto_id = y.producto_id := by
  induction L with
  | nil => intro x hx; cases hx
  | cons a t ih =>
    intro x hx
    unfold bumpFirst at hx
    by_cases hpa : p a
    · rw [if_pos hpa] at hx
      rcases List.mem_cons.mp hx with rfl | hxt
      · exact ⟨a, List.mem_cons_self _ _, rfl, rfl, rfl⟩
      · exact ⟨x, List.mem_cons_of_mem _ hxt, rfl, rfl, rfl⟩
    · rw [if_neg hpa] at hx
      rcases List.mem_cons.mp hx with rfl | hxt
      · exact ⟨x, List.mem_cons_self _ _, rfl, rfl, rfl⟩
      · obtain ⟨y, hy, hfields⟩ := ih x hxt
        exact ⟨y, List.mem_cons_of_mem _ hy, hfields⟩

/-- `bumpFirst` only changes a quantity, so well-formedness survives. -/
theorem WFitems_bumpFirst (p : CartItem → Bool) (d : Int) (L : List CartItem)
    (hWF : WFitems L) : WFitems (bumpFirst p d L) := by
  unfold WFitems at hWF ⊢
  induction L with
  | nil => exact hWF
  | cons a t ih =>
    rw [List.pairwise_cons] at hWF
    unfold bumpFirst
    by_cases hpa : p a
    · rw [if_pos hpa, List.pairwise_cons]
      exact ⟨fun b hb => hWF.1 b hb, hWF.2⟩
    · rw [if_neg hpa, List.pairwise_cons]
      refine ⟨fun b hb => ?_, ih hWF.2⟩
      obtain ⟨y, hy, h1, h2, h3⟩ := bumpFirst_shape p d t b hb
      have hR := hWF.1 y hy
      refine ⟨by rw [h1]; exact hR.1, ?_⟩
      rcases hR.2 with h | h
      · exact Or.inl (by rw [h2]; exact h)
      · exact Or.inr (by rw [h3]; exact h)
/-- Re-parenting the row `s0` to a cart that holds no row for `s0`'s product
preserves well-formedness. -/
theorem WFitems_setCartOf (L : List CartItem) (s0 : CartItem) (ucId : Nat)
    (hWF : WFitems L) (hs0 : s0 ∈ L)
    (hnone : ∀ t ∈ L, ¬(t.cart_id = ucId ∧ t.producto_id = s0.producto_id)) :
    WFitems (setCartOf s0.id ucId L) := by
  unfold WFitems at hWF ⊢
  unfold setCartOf
  rw [List.pairwise_map]
  refine List.Pairwise.imp_of_mem ?_ hWF
  intro a b ha hb hab
  have haid : a.id = s0.id → a = s0 := by
    intro h
    by_contra hne
    exact (List.Pairwise.forall wfRelSymm hWF ha hs0 hne).1 h
  have hbid : b.id = s0.id → b = s0 := by
    intro h
    by_contra hne
    exact (List.Pairwise.forall wfRelSymm hWF hb hs0 hne).1 h
  by_cases h1 : a.id = s0.id <;> by_cases h2 : b.id = s0.id
  · exact absurd (h1.trans h2.symm) hab.1
  · have hb1 : (a.id == s0.id) = true := by simpa using h1
    have hb2 : (b.id == s0.id) = false := by simpa using h2
    simp only [hb1, hb2, Bool.false_eq_true, eq_self_iff_true, if_true, if_false]
    refine ⟨hab.1, ?_⟩
    by_cases hbc : b.cart_id = ucId
    · refine Or.inr ?_
      have ha0 := haid h1
      intro hpeq
      exact hnone b hb ⟨hbc, by rw [← hpeq, ha0]⟩
    · exact Or.inl (Ne.symm hbc)
  · have hb1 : (a.id == s0.id) = false := by simpa using h1
    have hb2 : (b.id == s0.id) = true := by simpa using h2
    simp only [hb1, hb2, Bool.false_eq_true, eq_self_iff_true, if_true, if_false]
    refine ⟨hab.1, ?_⟩
    by_cases hac : a.cart_id = ucId
    · refine Or.inr ?_
      have hb0 := hbid h2
      intro hpeq
      exact hnone a ha ⟨hac, by rw [hpeq, hb0]⟩
    · exact Or.inl hac
  · have hb1 : (a.id == s0.id) = false := by simpa using h1
    have hb2 : (b.id == s0.id) = false := by simpa using h2
    simp only [hb1, hb2, Bool.false_eq_true, if_false]
    exact hab
/-- A row whose id differs from the migrated item's and whose (cart, product)
cannot be hit by the merge survives one migration step untouched. -/
theorem migrateStep_keeps (ucId : Nat) (L : List CartItem) (sj x : CartItem)
    (hx : x ∈ L) (hid : x.id ≠ sj.id)
    (hup : x.cart_id = ucId → x.producto_id ≠ sj.producto_id) :
    x ∈ migrateStep ucId L sj := by
  unfold migrateStep
  split
  · apply mem_bumpFirst_of_neg _ _ _ _ hx
    simp only [Bool.and_eq_true, beq_iff_eq, not_and]
    intro hc hp
    exact (hup hc) hp
  · unfold setCartOf
    have hfix : (fun it => if it.id == sj.id then { it with cart_id := ucId } else it) x
        = x := by
      simp [hid]
    exact hfix ▸ List.mem_map_of_mem _ hx
/-- Such a row survives the whole migration loop untouched. -/
theorem migrateItems_keeps (ucId : Nat) (ss L : List CartItem) (x : CartItem)
    (hx : x ∈ L)
    (h : ∀ sj ∈ ss, x.id ≠ sj.id ∧ (x.cart_id = ucId → x.producto_id ≠ sj.producto_id)) :
    x ∈ migrateItems ucId ss L := by
  induction ss generalizing L with
  | nil => exact hx
  | cons s0 rest ih =>
    have h0 := h s0 (List.mem_cons_self _ _)
    exact ih (migrateStep ucId L s0)
      (migrateStep_keeps ucId L s0 x hx h0.1 h0.2)
      (fun sj hj => h sj (List.mem_cons_of_mem _ hj))

/-- One migration step only re-parents the migrated item or bumps the
existing user-cart row: ids and products are inherited, and any new
cart assignment is the user cart applied to the migrated item's row. -/
theorem migrateStep_shape (ucId : Nat) (L : List CartItem) (sj : CartItem) :
    ∀ x ∈ migrateStep ucId L sj, ∃ y ∈ L,
      x.id = y.id ∧ x.producto_id = y.producto_id ∧
      (x.cart_id = y.cart_id ∨ (x.cart_id = ucId ∧ y.id = sj.id)) := by
  unfold migrateStep
  split
  · intro x hx
    obtain ⟨y, hy, h1, h2, h3⟩ := bumpFirst_shape _ _ _ x hx
    exact ⟨y, hy, h1, h3, Or.inl h2⟩
  · intro x hx
    unfold setCartOf at hx
    obtain ⟨y, hy, hxy⟩ := List.mem_map.mp hx
    by_cases h0 : y.id = sj.id
    · have hb0 : (y.id == sj.id) = true := by simpa using h0
      rw [if_pos hb0] at hxy
      subst hxy
      exact ⟨y, hy, rfl, rfl, Or.inr ⟨rfl, h0⟩⟩
    · have hb0 : ¬((y.id == sj.id) = true) := by simp [h0]
      rw [if_neg hb0] at hxy
      subst hxy
      exact ⟨y, hy, rfl, rfl, Or.inl rfl⟩

/-- One migration step preserves well-formedness of the item table. -/
theorem WFitems_migrateStep (ucId : Nat) (L : List CartItem) (sj : CartItem)
    (hWF : WFitems L) (hsj : sj ∈ L) : WFitems (migrateStep ucId L sj) := by
  unfold migrateStep
  split
  · exact WFitems_bumpFirst _ _ _ hWF
  · rename_i hnone
    apply WFitems_setCartOf L sj ucId hWF hsj
    intro t ht hcp
    unfold findItem at hnone
    have := List.find?_eq_none.mp hnone t ht
    simp only [Bool.and_eq_true, beq_iff_eq, not_and] at this
    exact this hcp.1 hcp.2
/-- The migration loop, itemwise: a session item whose product is absent from
the user cart ends up re-parented with its quantity intact, and a user-cart
row whose product is shared with a session item ends up with the two
quantities summed.  Requires a well-formed item table, session items that all
live in the session cart, and pairwise distinct products among them. -/
theorem migrateItems_spec (ucId scId : Nat) (hne : scId ≠ ucId) :
    ∀ (ss L : List CartItem), WFitems L →
      (∀ si ∈ ss, si ∈ L ∧ si.cart_id = scId) →
      ((ss.map (fun si => si.producto_id)).Nodup) →
      ∀ si ∈ ss,
        ((∀ t ∈ L, ¬(t.cart_id = ucId ∧ t.producto_id = si.producto_id)) →
          { si with cart_id := ucId } ∈ migrateItems ucId ss L) ∧
        (∀ t ∈ L, t.cart_id = ucId → t.producto_id = si.producto_id →
          { t with cantidad := t.cantidad + si.cantidad } ∈ migrateItems ucId ss L) := by
  intro ss
  induction ss with
  | nil =>
    intro L _ _ _ si hsi
    cases hsi
  | cons s0 rest ih =>
    intro L hWF hss hnodup si hsi
    have hs0L : s0 ∈ L := (hss s0 (List.mem_cons_self _ _)).1
    have hs0c : s0.cart_id = scId := (hss s0 (List.mem_cons_self _ _)).2
    have hnodup' : s0.producto_id ∉ rest.map (fun si => si.producto_id) ∧
        (rest.map (fun si => si.producto_id)).Nodup := by
      rw [List.map_cons, List.nodup_cons] at hnodup
      exact hnodup
    have hWF2 : WFitems (migrateStep ucId L s0) := WFitems_migrateStep ucId L s0 hWF hs0L
    have hrest : ∀ sj ∈ rest, sj ∈ migrateStep ucId L s0 ∧ sj.cart_id = scId := by
      intro sj hj
      obtain ⟨hjL, hjc⟩ := hss sj (List.mem_cons_of_mem _ hj)
      have hjprod : sj.producto_id ≠ s0.producto_id := by
        intro h
        exact hnodup'.1 (h ▸ List.mem_map_of_mem _ hj)
      have hjne : sj ≠ s0 := fun h => hjprod (by rw [h])
      exact ⟨migrateStep_keeps ucId L s0 sj hjL (hWF.distinct hjL hs0L hjne).1
        (fun _ => hjprod), hjc⟩
    have hfold : migrateItems ucId (s0 :: rest) L =
        migrateItems ucId rest (migrateStep ucId L s0) := rfl
    rcases List.mem_cons.mp hsi with rfl | hsir
    · constructor
      · intro hnouser
        have hfind : findItem L ucId si.producto_id = none := by
          unfold findItem
          rw [List.find?_eq_none]
          intro t ht
          simp only [Bool.and_eq_true, beq_iff_eq, not_and]
          intro h1 h2
          exact (hnouser t ht) ⟨h1, h2⟩
        have hstep : migrateStep ucId L si = setCartOf si.id ucId L := by
          unfold migrateStep
          rw [hfind]
        have hx : { si with cart_id := ucId } ∈ migrateStep ucId L si := by
          rw [hstep]
          unfold setCartOf
          have hfix : (fun it => if it.id == si.id then { it with cart_id := ucId } else it) si
              = { si with cart_id := ucId } := by simp
          exact hfix ▸ List.mem_map_of_mem _ hs0L
        rw [hfold]
        apply migrateItems_keeps ucId rest _ _ hx
        intro sj hj
        obtain ⟨hjL, hjc⟩ := hss sj (List.mem_cons_of_mem _ hj)
        have hjprod : sj.producto_id ≠ si.producto_id := by
          intro h
          exact hnodup'.1 (h ▸ List.mem_map_of_mem _ hj)
        have hjne : sj ≠ si := fun h => hjprod (by rw [h])
        refine ⟨(hWF.distinct hs0L hjL (Ne.symm hjne)).1, fun _ => Ne.symm hjprod⟩
      · intro t ht hc hp
        have hpred : (fun it => it.cart_id == ucId && it.producto_id == si.producto_id) t
            = true := by
          simp [hc, hp]
        have hfind : ∃ t0, findItem L ucId si.producto_id = some t0 := by
          cases hfd : findItem L ucId si.producto_id with
          | some t0 => exact ⟨t0, rfl⟩
          | none =>
            unfold findItem at hfd
            exact absurd hpred (by simpa using List.find?_eq_none.mp hfd t ht)
        obtain ⟨t0, ht0⟩ := hfind
        have ht0' : L.find? (fun it => it.cart_id == ucId && it.producto_id == si.producto_id)
            = some t0 := by
          unfold findItem at ht0
          exact ht0
        have ht0L : t0 ∈ L := List.mem_of_find?_eq_some ht0'
        have ht0pred := List.find?_some ht0'
        simp only [Bool.and_eq_true, beq_iff_eq] at ht0pred
        have ht0t : t0 = t :=
          hWF.cart_prod_inj ht0L ht (ht0pred.1.trans hc.symm) (ht0pred.2.trans hp.symm)
        subst ht0t
        have hstep : migrateStep ucId L si =
            bumpFirst (fun it => it.cart_id == ucId && it.producto_id == si.producto_id)
              si.cantidad L := by
          unfold migrateStep
          rw [ht0]
        have hx : { t0 with cantidad := t0.cantidad + si.cantidad } ∈ migrateStep ucId L si := by
          rw [hstep]
          exact bumped_mem_bumpFirst _ _ _ _ ht0'
        rw [hfold]
        apply migrateItems_keeps ucId rest _ _ hx
        intro sj hj
        obtain ⟨hjL, hjc⟩ := hss sj (List.mem_cons_of_mem _ hj)
        have hjprod : sj.producto_id ≠ si.producto_id := by
          intro h
          exact hnodup'.1 (h ▸ List.mem_map_of_mem _ hj)
        have htne : t0 ≠ sj := by
          intro h
          rw [h] at hc
          exact hne (hjc.symm.trans hc)
        refine ⟨(hWF.distinct ht0L hjL htne).1, fun _ => ?_⟩
        show t0.producto_id ≠ sj.producto_id
        rw [hp]
        exact Ne.symm hjprod
    · have IH := ih (migrateStep ucId L s0) hWF2 hrest hnodup'.2 si hsir
      have hsiprod : si.producto_id ≠ s0.producto_id := by
        intro h
        exact hnodup'.1 (h ▸ List.mem_map_of_mem _ hsir)
      constructor
      · intro hnouser
        rw [hfold]
        apply IH.1
        intro t2 ht2 hcp2
        obtain ⟨y, hy, h1, h2, h3⟩ := migrateStep_shape ucId L s0 t2 ht2
        rcases h3 with h3 | ⟨h3a, h3b⟩
        · exact hnouser y hy ⟨h3 ▸ hcp2.1, h2 ▸ hcp2.2⟩
        · have hy0 : y = s0 := by
            by_contra hne2
            exact (hWF.distinct hy hs0L hne2).1 h3b
          apply hsiprod
          rw [← hcp2.2, h2, hy0]
      · intro t ht hc hp
        have htne : t ≠ s0 := by
          intro h
          rw [h] at hc
          exact hne (hs0c.symm.trans hc)
        have htL2 : t ∈ migrateStep ucId L s0 :=
          migrateStep_keeps ucId L s0 t ht (hWF.distinct ht hs0L htne).1
            (fun _ => by rw [hp]; exact hsiprod)
        rw [hfold]
        exact IH.2 t htL2 hc hp
/-- Reduction of `migrar_carrito_sesion_a_usuario` when the session cart and
the user cart both exist and the session cart is populated. -/
theorem migrar_eq_found (db : DB) (sid : String) (uid : Nat) (sc uc : Cart)
    (hsc : db.carts.find? (fun c => c.session_id == some sid && c.activo) = some sc)
    (huc : db.carts.find? (fun c => c.usuario_id == some uid && c.activo) = some uc)
    (hne : db.items.filter (fun it => it.cart_id == sc.id) ≠ []) :
    migrar_carrito_sesion_a_usuario sid uid db =
      (true, { db with
        items := migrateItems uc.id (db.items.filter (fun it => it.cart_id == sc.id))
          db.items,
        carts := db.carts.map
          (fun c => if c.id == sc.id then { c with activo := false } else c) }) := by
  have hemp : (db.items.filter (fun it => it.cart_id == sc.id)).isEmpty = false := by
    cases hl : db.items.filter (fun it => it.cart_id == sc.id) with
    | nil => exact absurd hl hne
    | cons a t => rfl
  unfold migrar_carrito_sesion_a_usuario
  simp only [hsc, huc, hemp, Bool.false_eq_true, if_false]

/-- **C6.** Migrating a session cart with zero items is a no-op returning
success.  Migrating a populated session cart into an existing user cart
succeeds and produces a state in which the session cart row is marked
inactive but never deleted (all other carts survive unchanged and the cart
count is preserved), every session item whose product was absent from the
user cart is re-parented to the user cart with its quantity intact, and every
user-cart row sharing a product with a session item carries the summed
quantity. -/
theorem C6_migrar (db : DB) (sid : String) (uid : Nat) (sc uc : Cart)
    (hWF : WFitems db.items)
    (hprod : ((db.items.filter (fun it => it.cart_id == sc.id)).map
      (fun si => si.producto_id)).Nodup)
    (hsc : db.carts.find? (fun c => c.session_id == some sid && c.activo) = some sc)
    (huc : db.carts.find? (fun c => c.usuario_id == some uid && c.activo) = some uc)
    (hneq : sc.id ≠ uc.id) :
    (db.items.filter (fun it => it.cart_id == sc.id) = [] →
      migrar_carrito_sesion_a_usuario sid uid db = (true, db)) ∧
    (db.items.filter (fun it => it.cart_id == sc.id) ≠ [] →
      ∃ db', migrar_carrito_sesion_a_usuario sid uid db = (true, db') ∧
        { sc with activo := false } ∈ db'.carts ∧
        db'.carts.length = db.carts.length ∧
        (∀ c ∈ db.carts, c.id ≠ sc.id → c ∈ db'.carts) ∧
        (∀ si ∈ db.items.filter (fun it => it.cart_id == sc.id),
          ((∀ t ∈ db.items, ¬(t.cart_id = uc.id ∧ t.producto_id = si.producto_id)) →
            { si with cart_id := uc.id } ∈ db'.items) ∧
          (∀ t ∈ db.items, t.cart_id = uc.id → t.producto_id = si.producto_id →
            { t with cantidad := t.cantidad + si.cantidad } ∈ db'.items))) := by
  constructor
  · intro hempty
    unfold migrar_carrito_sesion_a_usuario
    simp only [hsc, hempty, List.isEmpty_nil, if_true]
  · intro hnem
    refine ⟨_, migrar_eq_found db sid uid sc uc hsc huc hnem, ?_, ?_, ?_, ?_⟩
    · have hscmem : sc ∈ db.carts := List.mem_of_find?_eq_some hsc
      have hfix : (fun c => if c.id == sc.id then { c with activo := false } else c) sc
          = { sc with activo := false } := by simp
      exact hfix ▸ List.mem_map_of_mem _ hscmem
    · simp
    · intro c hc hcne
      have hfix : (fun c => if c.id == sc.id then { c with activo := false } else c) c
          = c := by simp [hcne]
      exact hfix ▸ List.mem_map_of_mem _ hc
    · intro si hsi
      have hss : ∀ sj ∈ db.items.filter (fun it => it.cart_id == sc.id),
          sj ∈ db.items ∧ sj.cart_id = sc.id := by
        intro sj hj
        have hj' := List.mem_filter.mp hj
        exact ⟨hj'.1, by simpa using hj'.2⟩
      exact migrateItems_spec uc.id sc.id hneq
        (db.items.filter (fun it => it.cart_id == sc.id)) db.items hWF hss hprod si hsi

/-- Witness for C6: the populated migration of `dbMigracionStock` (summed
quantity 6 on the user cart's row, session cart 2 inactive afterwards), and
the empty-cart no-op on `dbDosCarritos`. -/
theorem C6_migrar_witness :
    (∃ db', migrar_carrito_sesion_a_usuario "s" 7 dbMigracionStock = (true, db') ∧
      (⟨2, none, some "s", false⟩ : Cart) ∈ db'.carts ∧
      (⟨1, 1, 1, 6, 100⟩ : CartItem) ∈ db'.items) ∧
    migrar_carrito_sesion_a_usuario "s" 7 dbDosCarritos = (true, dbDosCarritos) := by
  constructor
  · obtain ⟨db', heq, hinact, hlen, hothers, hitems⟩ :=
      (C6_migrar dbMigracionStock "s" 7 ⟨2, none, some "s", true⟩ ⟨1, some 7, none, true⟩
        (by unfold WFitems; decide) (by decide) (by decide) (by decide) (by decide)).2
        (by decide)
    refine ⟨db', heq, hinact, ?_⟩
    have hsum := (hitems ⟨2, 2, 1, 3, 100⟩ (by decide)).2 ⟨1, 1, 1, 3, 100⟩ (by decide)
      rfl rfl
    simpa using hsum
  · exact (C6_migrar dbDosCarritos "s" 7 ⟨2, none, some "s", true⟩
      ⟨1, some 7, some "otra", true⟩ (by unfold WFitems; decide) (by decide) (by decide)
      (by decide) (by decide)).1 (by decide)
/-- Witness for C3 (amended): adding quantity 0 of product 1 to the empty
cart fails with the state unchanged, and the successful 2-unit insert leaves
a positive quantity. -/
theorem C3_agregar_cantidad_no_positiva_witness :
    agregar_item_carrito 1 1 0 dbCarritoVacio = (none, dbCarritoVacio) ∧
    (0 : Int) < (⟨1, 1, 1, 2, 5000⟩ : CartItem).cantidad := by
  constructor
  · exact (C3_agregar_cantidad_no_positiva dbCarritoVacio 1 1 0).1 rfl (by decide)
  · exact (C3_agregar_cantidad_no_positiva dbCarritoVacio 1 1 2).2
      ⟨1, 1, 1, 2, 5000⟩ (agregar_item_carrito 1 1 2 dbCarritoVacio).2 (by decide)

/-- **C2 (counterexample).** Migrating session cart 2 (3 units of product 1)
into user cart 1 (3 more units) succeeds and leaves the user cart's item at
quantity 6 although the product's stock is 5: the quantity ≤ stock invariant
is NOT preserved by `migrar_carrito_sesion_a_usuario`, which sums quantities
without any stock check. -/
theorem C2_counterexample :
    (migrar_carrito_sesion_a_usuario "s" 7 dbMigracionStock).1 = true ∧
    getProducto (migrar_carrito_sesion_a_usuario "s" 7 dbMigracionStock).2 1 =
      some ⟨1, 100, 5, true⟩ ∧
    findItem (migrar_carrito_sesion_a_usuario "s" 7 dbMigracionStock).2.items 1 1 =
      some ⟨1, 1, 1, 6, 100⟩ ∧
    ¬((6 : Int) ≤ 5) := by decide

/-- **C2 (amended).** The quantity ≤ stock invariant does hold for the two
checked operations: every successful `agregar_item_carrito` and every
successful `actualizar_cantidad_item` leaves the touched item with a quantity
no greater than the linked product's current stock. -/
theorem C2_cantidad_le_stock (db : DB) (cid pid itemId : Nat) (c q : Int) :
    (∀ it db', agregar_item_carrito cid pid c db = (some it, db') →
      ∃ p, getProducto db' pid = some p ∧ it.cantidad ≤ p.stock) ∧
    (∀ it db', actualizar_cantidad_item itemId q db = (some it, db') →
      ∃ p, getProducto db' it.producto_id = some p ∧ it.cantidad ≤ p.stock) := by
  constructor
  · intro it db' hsucc
    unfold agregar_item_carrito at hsucc
    split at hsucc
    · simp at hsucc
    · split at hsucc
      · simp at hsucc
      · rename_i producto heq
        split at hsucc
        · simp at hsucc
        · split at hsucc
          · simp at hsucc
          · rename_i hstock1
            split at hsucc
            · rename_i ex hex
              split at hsucc
              · simp at hsucc
              · split at hsucc
                · simp at hsucc
                · rename_i hstock2 _
                  have hsnd := congrArg Prod.snd hsucc
                  have hfst := congrArg Prod.fst hsucc
                  simp only [Prod.fst, Prod.snd] at hfst hsnd
                  injection hfst with hfst
                  subst hsnd
                  refine ⟨producto, heq, ?_⟩
                  rw [← hfst]
                  show ex.cantidad + c ≤ producto.stock
                  omega
            · rename_i hex
              split at hsucc
              · simp at hsucc
              · have hsnd := congrArg Prod.snd hsucc
                have hfst := congrArg Prod.fst hsucc
                simp only [Prod.fst, Prod.snd] at hfst hsnd
                injection hfst with hfst
                subst hsnd
                refine ⟨producto, heq, ?_⟩
                rw [← hfst]
                show c ≤ producto.stock
                omega
  · intro it db' hsucc
    unfold actualizar_cantidad_item at hsucc
    split at hsucc
    · simp at hsucc
    · rename_i item hitem
      split at hsucc
      · simp at hsucc
      · split at hsucc
        · simp at hsucc
        · rename_i producto heq
          split at hsucc
          · simp at hsucc
          · rename_i hstock
            have hsnd := congrArg Prod.snd hsucc
            have hfst := congrArg Prod.fst hsucc
            simp only [Prod.fst, Prod.snd] at hfst hsnd
            injection hfst with hfst
            subst hsnd
            rw [← hfst]
            refine ⟨producto, heq, ?_⟩
            show q ≤ producto.stock
            omega

/-- Witness for C2 (amended): both checked operations at concrete inputs. -/
theorem C2_cantidad_le_stock_witness :
    (∃ p, getProducto (agregar_item_carrito 1 1 3 dbItemExistente).2 1 = some p ∧
      (5 : Int) ≤ p.stock) ∧
    (∃ p, getProducto (actualizar_cantidad_item 1 7 dbItemExistente).2 1 = some p ∧
      (7 : Int) ≤ p.stock) := by
  have h1 := (C2_cantidad_le_stock dbItemExistente 1 1 1 3 7).1
    ⟨1, 1, 1, 5, 100⟩ (agregar_item_carrito 1 1 3 dbItemExistente).2 (by decide)
  have h2 := (C2_cantidad_le_stock dbItemExistente 1 1 1 3 7).2
    ⟨1, 1, 1, 7, 100⟩ (actualizar_cantidad_item 1 7 dbItemExistente).2 (by decide)
  exact ⟨h1, h2⟩
